import Mathlib

/-!
Shallow embedding of `src/fuse_core/core/fields.py` (the `fusebox` field
coercion and validation pipeline): the `Field` base class and its `set`,
`validate` and `handle` operations, together with the concrete variants
`StringField`, `IntegerField`, `FloatField`, `DateField` and `ArrayField`.

Python values are modelled by the inductive `PyVal`, Python exceptions by
`PyErr`; fallible code returns `Except PyErr _`.  Handler, validator and
method objects (external collaborators) are modelled as functions.  The
`dateutil` parser and `datetime.fromtimestamp` (third-party / standard
library) are abstracted as parameters of `DateEnv`.  Floating point values
are modelled as exact rationals: every numeric value appearing in the
theorems below is exactly representable.
-/

namespace FuseCore

/-- Model of the Python exception kinds that `fields.py` can raise or
catch.  `ParserError` models `dateutil.parser.ParserError`, which is a
subclass of `ValueError`; `ValueValidationError` and `ArraySizeLimitError`
come from `fuse_core.core.exceptions` (not under src), modelled from the
spec as distinct from the umbrella kinds. -/
inductive PyErr where
  | KeyError
  | ValueError (msg : String)
  | IndexError
  | OverflowError
  | AttributeError (msg : String)
  | TypeError (msg : String)
  | ZeroDivisionError
  | ParserError
  | NameError (msg : String)
  | ValueValidationError
  | ArraySizeLimitError (msg : String)
deriving DecidableEq

/-- Date/time value, modelling `datetime.datetime`. -/
structure PyDateTime where
  year : Int
  month : Int
  day : Int
  hour : Int := 0
  minute : Int := 0
  second : Int := 0
deriving DecidableEq

/-- Date-only value, modelling `datetime.date` (the result of calling the
`date` method of a `datetime`). -/
structure PyDate where
  year : Int
  month : Int
  day : Int
deriving DecidableEq

/-- Time-only value, modelling `datetime.time` (the result of calling the
`time` method of a `datetime`). -/
structure PyTime where
  hour : Int
  minute : Int
  second : Int
deriving DecidableEq

/-- Model of the Python values flowing through the pipeline. -/
inductive PyVal where
  | VNone
  | VStr (s : String)
  | VInt (n : Int)
  | VFloat (q : Rat)
  | VDateTime (d : PyDateTime)
  | VDate (d : PyDate)
  | VTime (t : PyTime)
deriving DecidableEq

/-- A handler / custom method / `handle` override: transforms a value or
raises (`IHandler.handle`, `Field._method`, `Field.handle`). -/
abbrev Handler := PyVal → Except PyErr PyVal

/-- A validator: `IValidator.validate(value) -> bool`. -/
abbrev Validator := PyVal → Bool

/-- The `Field.exceptions` umbrella tuple:
`(KeyError, ValueError, IndexError, OverflowError)`.  `ParserError` is a
`ValueError` subclass and so is caught as well. -/
def isUmbrella : PyErr → Bool
  | .KeyError => true
  | .ValueError _ => true
  | .IndexError => true
  | .OverflowError => true
  | .ParserError => true
  | _ => false

/-- Model of the `DEFAULT_FROM_INPUT` sentinel for the `default`
configuration attribute: `default` is Python `None`, an instance of the
sentinel class, or an ordinary value. -/
inductive DefaultCfg where
  | NoneDefault
  | FromInput
  | SomeVal (v : PyVal)
deriving DecidableEq

/-- Two-digit zero padding used when rendering date/time components. -/
def pad2 (n : Int) : String :=
  if 0 ≤ n ∧ n < 10 then "0" ++ toString n else toString n

/-- Model of Python `str(value)` for `PyVal`. -/
def pyStrRaw : PyVal → String
  | .VNone => "None"
  | .VStr s => s
  | .VInt n => toString n
  | .VFloat q => toString q
  | .VDateTime d =>
      toString d.year ++ "-" ++ pad2 d.month ++ "-" ++ pad2 d.day ++ " " ++
        pad2 d.hour ++ ":" ++ pad2 d.minute ++ ":" ++ pad2 d.second
  | .VDate d => toString d.year ++ "-" ++ pad2 d.month ++ "-" ++ pad2 d.day
  | .VTime t => pad2 t.hour ++ ":" ++ pad2 t.minute ++ ":" ++ pad2 t.second

/-- The `ValueError` raised by the skip check:
`ValueError(f'Value "{value}" in skip list')`. -/
def skipError (v : PyVal) : PyErr :=
  .ValueError ("Value \"" ++ pyStrRaw v ++ "\" in skip list")

/-- Configuration state of a constructed `Field` (the `__slots__`
attributes, immutable after `__init__`). -/
structure FieldConfig where
  name : Option String := none
  verbose_name : Option String := none
  null : Bool := false
  skip_values : List PyVal := []
  default : DefaultCfg := .NoneDefault
  method : Option Handler := none
  handlers : List Handler := []
  validators : List Validator := []
  raise_exception : Bool := true

/-- Model of `Field.__init__`: stores the configuration, raising
`AttributeError` when both a truthy `method` and a non-empty `handlers`
list are given (Python truthiness: a callable is truthy, a list is truthy
iff non-empty; `None` arguments are normalised to empty tuples). -/
def Field.init (name verbose_name : Option String) (null : Bool)
    (skip_values : List PyVal) (default : DefaultCfg)
    (method : Option Handler) (handlers : List Handler)
    (validators : List Validator) (raise_exception : Bool) :
    Except PyErr FieldConfig :=
  if method.isSome && !handlers.isEmpty then
    .error (.AttributeError "using `method` and `handlers` together is not allowed")
  else
    .ok { name := name, verbose_name := verbose_name, null := null,
          skip_values := skip_values, default := default, method := method,
          handlers := handlers, validators := validators,
          raise_exception := raise_exception }

/-- Model of `Field.validate`: run the validators in order over `value`;
the first one returning false raises `ValueValidationError`; otherwise the
value is returned. -/
def runValidators : List Validator → PyVal → Except PyErr PyVal
  | [], v => .ok v
  | g :: gs, v => if g v then runValidators gs v else .error .ValueValidationError

/-- `Field.validate(value)`. -/
def Field.validate (f : FieldConfig) (value : PyVal) : Except PyErr PyVal :=
  runValidators f.validators value

/-- The base `Field.handle`: returns the value unchanged. -/
def Field.handle : Handler := fun v => .ok v

/-- The handler loop of `Field.set`: `for handler in self._handlers:
value = handler.handle(value)`.  On an exception the error is paired with
the current contents of the local variable `value` (the output of the last
successful handler), which is what the enclosing `except` clause of `set`
can observe. -/
def runHandlers : List Handler → PyVal → Except (PyErr × PyVal) PyVal
  | [], v => .ok v
  | h :: hs, v =>
      match h v with
      | .ok v2 => runHandlers hs v2
      | .error e => .error (e, v)

/-- The part of the `try` body of `Field.set` before the type-specific
coercion: skip check, handler loop, optional custom method.  Errors carry
the value of the local variable `value` at the point of the raise. -/
def preHandle (f : FieldConfig) (value : PyVal) : Except (PyErr × PyVal) PyVal :=
  if value ∈ f.skip_values then .error (skipError value, value)
  else
    match runHandlers f.handlers value with
    | .error ev => .error ev
    | .ok v1 =>
        match f.method with
        | none => .ok v1
        | some m =>
            match m v1 with
            | .ok v2 => .ok v2
            | .error e => .error (e, v1)

/-- The whole `try` body of `Field.set`: `preHandle`, then the inner
`try: value = self.handle(value) except Exception` block, which re-raises
when `raise_exception` is true and otherwise keeps the pre-coercion
value. -/
def setBody (f : FieldConfig) (handle : Handler) (value : PyVal) :
    Except (PyErr × PyVal) PyVal :=
  match preHandle f value with
  | .error ev => .error ev
  | .ok v2 =>
      match handle v2 with
      | .ok v3 => .ok v3
      | .error e => if f.raise_exception then .error (e, v2) else .ok v2

/-- Model of `Field.set`: run the body; an exception from one of the
umbrella kinds (`Field.exceptions`) is intercepted, and when `default` is
the `DEFAULT_FROM_INPUT` sentinel the current contents of the local
variable `value` are returned, otherwise the exception is re-raised.
Non-umbrella exceptions propagate.  `handle` is the type-specific coercion
of the concrete field variant (dynamic dispatch on `self.handle`). -/
def Field.set (f : FieldConfig) (handle : Handler) (value : PyVal) :
    Except PyErr PyVal :=
  match setBody f handle value with
  | .ok v => .ok v
  | .error (e, vcur) =>
      if isUmbrella e then
        if f.default = DefaultCfg.FromInput then .ok vcur else .error e
      else .error e

/-! ### Models of the Python string primitives

The embedding implements the string primitives it needs (`in`, `replace`,
`split`, `strip`, integer parsing) by structural recursion over the
character list of the string, so that every definition evaluates on
concrete inputs. -/

/-- Model of Python `c in s` for a single character. -/
def strContains (s : String) (c : Char) : Bool := s.data.contains c

/-- Model of Python `s.replace(old, new)` for one-character `old` and
`new` (the only use in the source replaces a separator character with a
decimal point). -/
def replaceChar (s : String) (old new : Char) : String :=
  ⟨s.data.map (fun x => if x = old then new else x)⟩

/-- Split a character list at every character satisfying `p`, keeping
empty pieces (as Python `str.split(sep)` does). -/
def splitPred (p : Char → Bool) : List Char → List (List Char)
  | [] => [[]]
  | x :: xs =>
      match splitPred p xs, p x with
      | r, true => [] :: r
      | y :: ys, false => (x :: y) :: ys
      | [], false => [[x]]

/-- Model of Python `s.split(sep)` with an explicit one-character
separator: empty pieces are kept. -/
def pySplitOn (s : String) (c : Char) : List String :=
  (splitPred (· = c) s.data).map (fun l => String.mk l)

/-- Model of Python `s.split()` / `s.split(None)`: split on whitespace
runs, discarding empty pieces. -/
def pySplitWs (s : String) : List String :=
  ((splitPred Char.isWhitespace s.data).map (fun l => String.mk l)).filter (· ≠ "")

/-- Model of Python `s.strip()`. -/
def pyStrip (s : String) : String :=
  ⟨((s.data.dropWhile Char.isWhitespace).reverse.dropWhile Char.isWhitespace).reverse⟩

/-- Parse a non-empty all-digit character list as a base-10 natural. -/
def digitsToNat? (l : List Char) : Option Nat :=
  if l ≠ [] ∧ l.all Char.isDigit then
    some (l.foldl (fun a c => a * 10 + (c.toNat - 48)) 0)
  else none

/-- Base-10 digit parse of a whole string. -/
def pyToNat? (s : String) : Option Nat := digitsToNat? s.data

/-- Parse an optional leading sign; returns (negative?, rest). -/
def splitSign (s : String) : Bool × String :=
  match s.data with
  | '-' :: rest => (true, ⟨rest⟩)
  | '+' :: rest => (false, ⟨rest⟩)
  | _ => (false, s)

/-! ### StringField and IntegerField -/

/-- `StringField.handle`: `return str(value)`. -/
def StringField.handle : Handler := fun v => .ok (.VStr (pyStrRaw v))

/-- Model of Python `int(s)` on text: surrounding whitespace stripped,
optional sign, base-10 digits; anything else raises `ValueError`.
(Underscore digit grouping is outside the model.) -/
def pyIntOfString (s : String) : Except PyErr Int :=
  let (neg, digits) := splitSign (pyStrip s)
  match pyToNat? digits with
  | some n => .ok (if neg then -(n : Int) else (n : Int))
  | none => .error (.ValueError ("invalid literal for int() with base 10: " ++ s))

/-- Truncation toward zero, as Python `int(float)` does. -/
def pyTrunc (q : Rat) : Int := q.num.tdiv (q.den : Int)

/-- `IntegerField.handle`: `return int(value)`. -/
def IntegerField.handle : Handler := fun v =>
  match v with
  | .VInt n => .ok (.VInt n)
  | .VFloat q => .ok (.VInt (pyTrunc q))
  | .VStr s => (pyIntOfString s).map .VInt
  | _ => .error (.TypeError "int() argument must be a string or a number")

/-! ### FloatField -/

/-- Modelled from the spec: the `get_separator` utility from
`fuse_core.core.utils` (the module is not under src).  Given the
configured separator characters and a text value, it returns the
configured separator present in the text, or none — a single-pass lookup
against the separator set. -/
def get_separator (seps : List Char) (value : String) : Option Char :=
  seps.find? (fun c => strContains value c)

/-- Modelled from the spec: `DEFAULT_FLOAT_SEPARATORS` from
`fuse_core.core.etc` (not under src) — the standard decimal-mark
separator set, containing the comma. -/
def DEFAULT_FLOAT_SEPARATORS : List Char := [',']

/-- Parse an unsigned decimal literal (`digits`, `digits.digits`,
`.digits` or `digits.`) as an exact rational.  Exponent and special forms
(`inf`, `nan`) are outside the model. -/
def parseUnsignedDecimal (s : String) : Option Rat :=
  match pySplitOn s '.' with
  | [intPart] => (pyToNat? intPart).map (fun n => (n : Rat))
  | [intPart, fracPart] =>
      if intPart = "" && fracPart = "" then none
      else
        let ip : Option Nat := if intPart = "" then some 0 else pyToNat? intPart
        let fp : Option Nat := if fracPart = "" then some 0 else pyToNat? fracPart
        match ip, fp with
        | some i, some f => some ((i : Rat) + (f : Rat) / ((10 : Rat) ^ fracPart.length))
        | _, _ => none
  | _ => none

/-- Model of Python `float(s)` on text. -/
def pyFloatOfString (s : String) : Except PyErr Rat :=
  let (neg, body) := splitSign (pyStrip s)
  match parseUnsignedDecimal body with
  | some q => .ok (if neg then -q else q)
  | none => .error (.ValueError ("could not convert string to float: " ++ s))

/-- Model of `fractions.Fraction(s)` on a string: optional sign, then
either a decimal literal or `digits/digits`; a zero denominator raises
`ZeroDivisionError`, any other malformed input raises `ValueError`. -/
def Fraction.fromString (s : String) : Except PyErr Rat :=
  let (neg, body) := splitSign (pyStrip s)
  match pySplitOn body '/' with
  | [numTxt] =>
      match parseUnsignedDecimal numTxt with
      | some q => .ok (if neg then -q else q)
      | none => .error (.ValueError ("Invalid literal for Fraction: " ++ s))
  | [numTxt, denTxt] =>
      match pyToNat? numTxt, pyToNat? denTxt with
      | some nu, some de =>
          if de = 0 then .error .ZeroDivisionError
          else .ok (if neg then -((nu : Rat) / (de : Rat)) else (nu : Rat) / (de : Rat))
      | _, _ => .error (.ValueError ("Invalid literal for Fraction: " ++ s))
  | _ => .error (.ValueError ("Invalid literal for Fraction: " ++ s))

/-- `FloatField.handle`: replace a detected separator with `.`; if the
text contains `/`, split it on whitespace, parse every token as a
`Fraction`, sum them and convert to float; otherwise parse as a float
literal (`float` of an already-float value is the identity, so the
fraction branch returns the sum directly). -/
def FloatField.handle (separators : List Char) (value : String) :
    Except PyErr Rat :=
  let new_value :=
    match get_separator separators value with
    | some c => replaceChar value c '.'
    | none => value
  if strContains new_value '/' then
    match (pySplitWs new_value).mapM Fraction.fromString with
    | .ok fracs => .ok (fracs.foldl (· + ·) 0)
    | .error e => .error e
  else
    pyFloatOfString new_value

/-! ### DateField -/

/-- Modelled from the spec: `EUROPEAN_DATE_FORMAT` from
`fuse_core.core.etc` (not under src) — the default output date format
string; its exact contents are not given in the sources and are
irrelevant to the properties proved below. -/
def EUROPEAN_DATE_FORMAT : String := "%d.%m.%Y"

/-- External collaborators of `DateField.handle`: the `dateutil` fuzzy
parser, `datetime.fromtimestamp` (seconds since the epoch, local time
zone) and `strftime` formatting. -/
structure DateEnv where
  parse_fuzzy : String → Except PyErr PyDateTime
  fromtimestamp : Rat → Except PyErr PyDateTime
  strftime : PyVal → String → Except PyErr String

/-- Configuration added by `DateField.__init__`. -/
structure DateFieldCfg where
  as_string : Bool := false
  out_date_format : Option String := some EUROPEAN_DATE_FORMAT
  date_attribute : Option String := none

/-- Model of `getattr(d, attr)()` on a `datetime` object: `date` and
`time` are zero-argument methods; the numeric components exist but are
not callable; anything else raises `AttributeError`. -/
def dtGetAttrCall (d : PyDateTime) (attr : String) : Except PyErr PyVal :=
  if attr = "date" then .ok (.VDate ⟨d.year, d.month, d.day⟩)
  else if attr = "time" then .ok (.VTime ⟨d.hour, d.minute, d.second⟩)
  else if (["year", "month", "day", "hour", "minute", "second"] : List String).contains attr then
    .error (.TypeError ("int object is not callable"))
  else .error (.AttributeError attr)

/-- `getattr(value, attr)()` on a pipeline value. -/
def pyGetAttrCall : PyVal → String → Except PyErr PyVal
  | .VDateTime d, attr => dtGetAttrCall d attr
  | _, attr => .error (.AttributeError attr)

/-- Model of Python `hasattr` for the attribute names relevant here: a
`datetime` has `date` and `time` methods, while `date` and `time` objects
do not have attributes of their own type name. -/
def pyHasattr : PyVal → String → Bool
  | .VDateTime _, a =>
      (["year", "month", "day", "hour", "minute", "second", "date", "time",
        "weekday", "isoformat", "strftime", "timestamp"] : List String).contains a
  | .VDate _, a =>
      (["year", "month", "day", "weekday", "isoformat", "strftime",
        "toordinal"] : List String).contains a
  | .VTime _, a =>
      (["hour", "minute", "second", "microsecond", "isoformat",
        "strftime"] : List String).contains a
  | _, _ => false

/-- The `try` block of `DateField.handle`: dispatch on the runtime type of
the input.  Text goes through the fuzzy parser, numbers through
`fromtimestamp`, an already-`datetime` value passes through; the `except
ParserError: raise e` clause re-raises unchanged.  For any other input
type the local `new_value` is never assigned and Python raises
`UnboundLocalError` (a `NameError`). -/
def DateField.dispatch (env : DateEnv) : PyVal → Except PyErr PyVal
  | .VStr s => (env.parse_fuzzy s).map PyVal.VDateTime
  | .VInt n => (env.fromtimestamp (n : Rat)).map PyVal.VDateTime
  | .VFloat q => (env.fromtimestamp q).map PyVal.VDateTime
  | .VDateTime d => .ok (.VDateTime d)
  | _ => .error (.NameError "new_value")

/-- The defensive second attribute check at the end of
`DateField.handle`: when `date_attribute` is a string (the empty string
included), require the current value to expose that attribute. -/
def DateField.attrRecheck (cfg : DateFieldCfg) (v : PyVal) :
    Except PyErr PyVal :=
  match cfg.date_attribute with
  | some a => if pyHasattr v a then .ok v else .error (.AttributeError a)
  | none => .ok v

/-- Post-processing of `DateField.handle` after the type dispatch: when
`date_attribute` is truthy, call the attribute of that name; when
`as_string` and a truthy `out_date_format` are set, return the
`strftime` rendering (the inner `try` re-raises `ValueError` and
`OverflowError` unchanged); otherwise run the defensive second attribute
check. -/
def DateField.postprocess (env : DateEnv) (cfg : DateFieldCfg) (v : PyVal) :
    Except PyErr PyVal :=
  let extracted : Except PyErr PyVal :=
    match cfg.date_attribute with
    | some a => if a ≠ "" then pyGetAttrCall v a else .ok v
    | none => .ok v
  match extracted with
  | .error e => .error e
  | .ok new_value =>
      match cfg.out_date_format with
      | some fmt =>
          if cfg.as_string && fmt ≠ "" then
            (env.strftime new_value fmt).map PyVal.VStr
          else
            DateField.attrRecheck cfg new_value
      | none => DateField.attrRecheck cfg new_value

/-- `DateField.handle`: type dispatch followed by post-processing. -/
def DateField.handle (env : DateEnv) (cfg : DateFieldCfg) (v : PyVal) :
    Except PyErr PyVal :=
  match DateField.dispatch env v with
  | .error e => .error e
  | .ok nv => DateField.postprocess env cfg nv

/-! ### ArrayField -/

/-- Modelled from the spec: `DEFAULT_ARRAY_SEPARATORS` from
`fuse_core.core.etc` (not under src) — the default element separator
set, containing the comma. -/
def DEFAULT_ARRAY_SEPARATORS : List Char := [',']

/-- The `size` configuration: an `int` or the `ARRAY_NO_SIZE_LIMITS`
marker. -/
inductive ArraySize where
  | NoLimits
  | Size (n : Int)
deriving DecidableEq

/-- Rendering of the `size` attribute inside the error message. -/
def ArraySize.render : ArraySize → String
  | .NoLimits => "ARRAY_NO_SIZE_LIMITS"
  | .Size n => toString n

/-- `ArrayField._split_string`: split by the detected separator
(`str.split(None)`, whitespace splitting, when no configured separator is
present). -/
def ArrayField.split_string (seps : List Char) (value : String) : List String :=
  match get_separator seps value with
  | some c => pySplitOn value c
  | none => pySplitWs value

/-- `ArrayField._check_array_size`: true when no limit is configured,
otherwise `len(value) >= self.size`. -/
def ArrayField.check_array_size (size : ArraySize) (value : List String) : Bool :=
  match size with
  | .NoLimits => true
  | .Size n => decide ((value.length : Int) ≥ n)

/-- `ArrayField._convert_values`: run every substring through the child
field's full `set` pipeline (`child_set` is `self.child_field.set`); an
exception from a child propagates. -/
def ArrayField.convert_values (child_set : Handler) (xs : List String) :
    Except PyErr (List PyVal) :=
  xs.mapM (fun v => child_set (.VStr v))

/-- `ArrayField.handle`: split, then raise `ArraySizeLimitError` when
`_check_array_size` returns false, then convert the elements. -/
def ArrayField.handle (seps : List Char) (size : ArraySize)
    (child_set : Handler) (value : String) : Except PyErr (List PyVal) :=
  let new_value := ArrayField.split_string seps value
  if !ArrayField.check_array_size size new_value then
    .error (.ArraySizeLimitError ("array size (" ++ size.render ++ ") exceeded"))
  else
    ArrayField.convert_values child_set new_value

/-! ### Concrete instances used by witnesses -/

/-- A concrete date value. -/
def dt0 : PyDateTime := { year := 2023, month := 5, day := 1, hour := 12 }

/-- A concrete `DateEnv`: a parser recognising one fuzzy date text, a
timestamp interpretation and a formatter. -/
def env0 : DateEnv :=
  { parse_fuzzy := fun s =>
      if s = "meeting on 2023-05-01 at noon" then .ok dt0 else .error .ParserError,
    fromtimestamp := fun _ => .ok dt0,
    strftime := fun _ _ => .ok "01.05.2023" }

/-! ### Theorems -/

/-- Helper: when every validator accepts, the validator loop returns the
value unchanged. -/
theorem runValidators_ok (gs : List Validator) (v : PyVal)
    (h : ∀ g ∈ gs, g v = true) : runValidators gs v = .ok v := by
  induction gs with
  | nil => rfl
  | cons g gs ih =>
      simp only [runValidators, h g (by simp)]
      exact ih (fun g' hg' => h g' (by simp [hg']))

/-- Helper: the first rejecting validator fails the loop with
`ValueValidationError`. -/
theorem runValidators_err (pre post : List Validator) (bad : Validator) (v : PyVal)
    (hpre : ∀ g ∈ pre, g v = true) (hbad : bad v = false) :
    runValidators (pre ++ bad :: post) v = .error .ValueValidationError := by
  induction pre with
  | nil => simp [runValidators, hbad]
  | cons g gs ih =>
      simp only [List.cons_append, runValidators, hpre g (by simp)]
      exact ih (fun g' hg' => hpre g' (by simp [hg']))

/-- Claim C1 counterexample: a field whose only validator rejects every
value.  `Field.set` nevertheless succeeds and returns the coerced value,
because `set` never invokes the validators — refuting the claim that
`set` fails as soon as a validator returns false. -/
theorem C1_set_ignores_failing_validator :
    Field.set { validators := [fun _ => false] } Field.handle (.VStr "x")
      = .ok (.VStr "x") := rfl

/-- Claim C1 (amended): validation lives in the separate `Field.validate`
method, which `Field.set` never calls.  `validate` runs all configured
validators over the value in order, fails with the validation-failed
condition as soon as one validator returns false, and returns the value
unchanged when all accept; `set` is insensitive to the validator
configuration. -/
theorem C1_validate_first_failure (f : FieldConfig) (v : PyVal) :
    ((∀ g ∈ f.validators, g v = true) → Field.validate f v = .ok v)
  ∧ (∀ pre post (bad : Validator), f.validators = pre ++ bad :: post →
       (∀ g ∈ pre, g v = true) → bad v = false →
       Field.validate f v = .error .ValueValidationError)
  ∧ (∀ h : Handler, Field.set f h v = Field.set { f with validators := [] } h v) := by
  refine ⟨fun h => runValidators_ok _ _ h, ?_, ?_⟩
  · intro pre post bad hsplit hpre hbad
    unfold Field.validate
    rw [hsplit]
    exact runValidators_err pre post bad v hpre hbad
  · intro h
    cases f
    rfl

/-- Claim C1 witness: concrete runs of the amended statement. -/
theorem C1_validate_first_failure_witness :
    Field.validate { validators := [fun _ => true] } (.VStr "x") = .ok (.VStr "x") :=
  (C1_validate_first_failure { validators := [fun _ => true] } (.VStr "x")).1
    (by intro g hg; simp at hg; subst hg; rfl)

/-- Claim C2: observed code behavior at the boundary.  With `size = 2`, a
split of two elements (equal to the limit) is accepted and a split of one
element (below the limit) raises `ArraySizeLimitError` — the code fails
when the count is below the limit and succeeds when it reaches it, the
opposite of the claim and of the error message text. -/
theorem C2_array_size_check_code_behavior :
    ArrayField.handle [','] (.Size 2) (Field.set {} Field.handle) "a,b"
      = .ok [.VStr "a", .VStr "b"]
  ∧ ArrayField.handle [','] (.Size 2) (Field.set {} Field.handle) "a"
      = .error (.ArraySizeLimitError "array size (2) exceeded") :=
  ⟨by with_unfolding_all rfl, by with_unfolding_all rfl⟩

/-- Claim C3 counterexample: a field with the `DEFAULT_FROM_INPUT`
default whose first handler rewrites the value and whose second handler
raises an umbrella error.  `set` returns the handler-transformed value
`"b"`, not the original raw input `"a"`. -/
theorem C3_fallback_returns_transformed_not_original :
    Field.set { default := .FromInput,
                handlers := [fun _ => .ok (.VStr "b"),
                             fun _ => .error (.ValueError "boom")] }
      Field.handle (.VStr "a") = .ok (.VStr "b")
  ∧ PyVal.VStr "b" ≠ PyVal.VStr "a" :=
  ⟨rfl, by decide⟩

/-- Claim C3 (amended): with the `DEFAULT_FROM_INPUT` default, an
umbrella-class failure makes `set` return the current contents of the
pipeline variable at the point of the raise — the original raw input only
if nothing transformed it yet; after a successful handler the transformed
value is returned instead. -/
theorem C3_fallback_returns_value_at_raise (h1 : Handler) (v v1 : PyVal) (e : PyErr)
    (hok : h1 v = .ok v1) (hu : isUmbrella e = true) :
    Field.set { default := .FromInput, handlers := [h1, fun _ => .error e] }
      Field.handle v = .ok v1 := by
  simp [Field.set, setBody, preHandle, runHandlers, hok, hu]

/-- Claim C3 witness: concrete run of the amended statement. -/
theorem C3_fallback_returns_value_at_raise_witness :
    Field.set { default := .FromInput,
                handlers := [fun _ => .ok (.VInt 2), fun _ => .error .KeyError] }
      Field.handle (.VInt 1) = .ok (.VInt 2) :=
  C3_fallback_returns_value_at_raise (fun _ => .ok (.VInt 2)) (.VInt 1) (.VInt 2)
    .KeyError rfl rfl

/-- Claim C4 counterexample: a skip value together with the
`DEFAULT_FROM_INPUT` default.  The skip `ValueError` is one of the
umbrella kinds, so `set` intercepts it and returns the value instead of
failing — refuting "fails with the skip condition regardless of the
default sentinel". -/
theorem C4_skip_with_from_input_default_returns_ok :
    Field.set { skip_values := [.VStr "x"], default := .FromInput }
      Field.handle (.VStr "x") = .ok (.VStr "x") := rfl

/-- Claim C4 (amended): for a raw input in `skip_values`, `set` raises the
skip `ValueError` without applying any handler, method or coercion —
unless the default is the `DEFAULT_FROM_INPUT` sentinel, in which case the
skip error is intercepted and the raw input is returned successfully.
The result is independent of handlers, method, coercion and
`raise_exception` (they are universally quantified here). -/
theorem C4_skip_check_behavior (f : FieldConfig) (h : Handler) (v : PyVal)
    (hv : v ∈ f.skip_values) :
    (f.default = DefaultCfg.FromInput → Field.set f h v = .ok v)
  ∧ (f.default ≠ DefaultCfg.FromInput → Field.set f h v = .error (skipError v)) := by
  constructor <;> intro hd <;>
    simp [Field.set, setBody, preHandle, hv, hd, isUmbrella, skipError]

/-- Claim C4 witness: concrete runs of the amended statement, one per
default configuration. -/
theorem C4_skip_check_behavior_witness :
    Field.set { skip_values := [PyVal.VStr "x"] } Field.handle (.VStr "x")
      = .error (skipError (.VStr "x"))
  ∧ Field.set { skip_values := [PyVal.VStr "x"], default := .FromInput }
      Field.handle (.VStr "x") = .ok (.VStr "x") :=
  ⟨(C4_skip_check_behavior { skip_values := [PyVal.VStr "x"] } Field.handle
      (.VStr "x") (by decide)).2 (by decide),
   (C4_skip_check_behavior { skip_values := [PyVal.VStr "x"], default := .FromInput }
      Field.handle (.VStr "x") (by decide)).1 rfl⟩

/-- Claim C5 counterexample: `Fraction("1/0")` raises
`ZeroDivisionError`, which is not a value-error condition (and is not in
the umbrella set), refuting "for every malformed fraction text it fails
with a value-error coercion condition". -/
theorem C5_fraction_one_over_zero_zero_division :
    FloatField.handle [','] "1/0" = .error .ZeroDivisionError :=
  by with_unfolding_all rfl

/-- Claim C5 (amended): with the comma configured as separator,
`FloatField.handle` maps "1,5" to 1.5, "1 1/2" to 1.5 and "3/4" to 0.75;
a non-numeric token among the whitespace-separated fraction tokens fails
with a value-error condition, but a zero denominator such as "1/0" fails
with a zero-division condition instead. -/
theorem C5_float_examples :
    FloatField.handle [','] "1,5" = .ok ((3 : Rat) / 2)
  ∧ FloatField.handle [','] "1 1/2" = .ok ((3 : Rat) / 2)
  ∧ FloatField.handle [','] "3/4" = .ok ((3 : Rat) / 4)
  ∧ FloatField.handle [','] "1 x/2"
      = .error (.ValueError "Invalid literal for Fraction: x/2")
  ∧ FloatField.handle [','] "1/0" = .error .ZeroDivisionError :=
  ⟨by with_unfolding_all rfl, by with_unfolding_all rfl, by with_unfolding_all rfl,
   by with_unfolding_all rfl, by with_unfolding_all rfl⟩

/-- Claim C6: `DateField.handle` dispatches on the runtime type of its
input — text through the fuzzy parser (a parser error propagates),
integers and floats through `fromtimestamp`, and an already-`datetime`
value passes through unchanged (shown both at the dispatch stage and
through the whole `handle` when no post-processing is configured). -/
theorem C6_date_type_dispatch (env : DateEnv) (cfg : DateFieldCfg)
    (hattr : cfg.date_attribute = none) (hstr : cfg.as_string = false) :
    (∀ s d, env.parse_fuzzy s = .ok d →
        DateField.handle env cfg (.VStr s) = .ok (.VDateTime d))
  ∧ (∀ s, env.parse_fuzzy s = .error .ParserError →
        DateField.handle env cfg (.VStr s) = .error .ParserError)
  ∧ (∀ (n : Int) d, env.fromtimestamp (n : Rat) = .ok d →
        DateField.handle env cfg (.VInt n) = .ok (.VDateTime d))
  ∧ (∀ (q : Rat) d, env.fromtimestamp q = .ok d →
        DateField.handle env cfg (.VFloat q) = .ok (.VDateTime d))
  ∧ (∀ d, DateField.dispatch env (.VDateTime d) = .ok (.VDateTime d)
        ∧ DateField.handle env cfg (.VDateTime d) = .ok (.VDateTime d)) := by
  obtain ⟨a, fmt, attr⟩ := cfg
  simp only at hattr hstr
  subst hattr hstr
  refine ⟨?_, ?_, ?_, ?_, ?_⟩
  · intro s d hp
    cases fmt <;>
      simp [DateField.handle, DateField.dispatch, DateField.postprocess,
            DateField.attrRecheck, Except.map, hp]
  · intro s hp
    simp [DateField.handle, DateField.dispatch, Except.map, hp]
  · intro n d hp
    cases fmt <;>
      simp [DateField.handle, DateField.dispatch, DateField.postprocess,
            DateField.attrRecheck, Except.map, hp]
  · intro q d hp
    cases fmt <;>
      simp [DateField.handle, DateField.dispatch, DateField.postprocess,
            DateField.attrRecheck, Except.map, hp]
  · intro d
    cases fmt <;>
      simp [DateField.handle, DateField.dispatch, DateField.postprocess,
            DateField.attrRecheck, Except.map]

/-- Claim C6 witness: concrete runs of the dispatch on all three input
kinds against the concrete environment `env0`. -/
theorem C6_date_type_dispatch_witness :
    DateField.handle env0 {} (.VStr "meeting on 2023-05-01 at noon")
      = .ok (.VDateTime dt0)
  ∧ DateField.handle env0 {} (.VStr "gibberish") = .error .ParserError
  ∧ DateField.handle env0 {} (.VInt 1690000000) = .ok (.VDateTime dt0)
  ∧ DateField.handle env0 {} (.VDateTime dt0) = .ok (.VDateTime dt0) :=
  ⟨(C6_date_type_dispatch env0 {} rfl rfl).1 _ dt0 rfl,
   (C6_date_type_dispatch env0 {} rfl rfl).2.1 "gibberish" rfl,
   (C6_date_type_dispatch env0 {} rfl rfl).2.2.1 1690000000 dt0 rfl,
   ((C6_date_type_dispatch env0 {} rfl rfl).2.2.2.2 dt0).2⟩

/-- Claim C7: an exception inside the type-specific `handle` step is
swallowed when `raise_exception` is false, and `set` continues with (and
returns) the value exactly as it was after handlers and method, before
the `handle` step; when `raise_exception` is true the exception
propagates out of the `handle` step into the body of `set`. -/
theorem C7_handle_error_suppression (f : FieldConfig) (hnd : Handler)
    (v v2 : PyVal) (e : PyErr)
    (hpre : preHandle f v = .ok v2) (herr : hnd v2 = .error e) :
    (f.raise_exception = false → Field.set f hnd v = .ok v2)
  ∧ (f.raise_exception = true → setBody f hnd v = .error (e, v2)) := by
  constructor <;> intro hr <;> simp [Field.set, setBody, hpre, herr, hr]

/-- Claim C7 witness: a concrete field with suppression enabled. -/
theorem C7_handle_error_suppression_witness :
    Field.set { raise_exception := false } (fun _ => .error (.TypeError "boom"))
      (.VStr "x") = .ok (.VStr "x") :=
  (C7_handle_error_suppression { raise_exception := false }
    (fun _ => .error (.TypeError "boom")) (.VStr "x") (.VStr "x")
    (.TypeError "boom") rfl rfl).1 rfl

/-- Claim C8: constructing a field with both a custom method and a
non-empty handler list fails with the configuration `AttributeError` at
construction time, for every other configuration argument. -/
theorem C8_init_method_and_handlers_conflict
    (name verbose_name : Option String) (null : Bool) (skip_values : List PyVal)
    (default : DefaultCfg) (m : Handler) (h0 : Handler) (hs : List Handler)
    (validators : List Validator) (raise_exception : Bool) :
    Field.init name verbose_name null skip_values default (some m) (h0 :: hs)
      validators raise_exception
      = .error (.AttributeError "using `method` and `handlers` together is not allowed") := by
  simp [Field.init]

/-- Claim C9: `StringField.handle` and `IntegerField.handle` are
idempotent on their own outputs: whenever `handle` succeeds, re-applying
it to the result succeeds with the same result. -/
theorem C9_string_integer_idempotent :
    (∀ v w, StringField.handle v = .ok w → StringField.handle w = .ok w)
  ∧ (∀ v w, IntegerField.handle v = .ok w → IntegerField.handle w = .ok w) := by
  constructor
  · intro v w h
    simp only [StringField.handle, Except.ok.injEq] at h
    subst h
    rfl
  · intro v w h
    cases v with
    | VInt n =>
        simp only [IntegerField.handle, Except.ok.injEq] at h
        subst h
        rfl
    | VFloat q =>
        simp only [IntegerField.handle, Except.ok.injEq] at h
        subst h
        rfl
    | VStr s =>
        simp only [IntegerField.handle] at h
        cases hi : pyIntOfString s with
        | ok n => rw [hi] at h; simp only [Except.map, Except.ok.injEq] at h; subst h; rfl
        | error e => rw [hi] at h; simp [Except.map] at h
    | VNone => simp [IntegerField.handle] at h
    | VDateTime d => simp [IntegerField.handle] at h
    | VDate d => simp [IntegerField.handle] at h
    | VTime t => simp [IntegerField.handle] at h

/-- Claim C9 witness: concrete canonical values. -/
theorem C9_string_integer_idempotent_witness :
    StringField.handle (.VStr "5") = .ok (.VStr "5")
  ∧ IntegerField.handle (.VInt 7) = .ok (.VInt 7) :=
  ⟨C9_string_integer_idempotent.1 (.VInt 5) (.VStr "5") rfl,
   C9_string_integer_idempotent.2 (.VStr "7") (.VInt 7) (by with_unfolding_all rfl)⟩

/-- Claim C10: with `date_attribute = "date"` and `as_string` false, the
attribute extraction itself succeeds (it yields the date part), but the
defensive second check then asks whether the *extracted* result exposes a
`date` attribute — a `date` object does not — so `DateField.handle`
raises the attribute-error condition for every input `datetime`. -/
theorem C10_date_attribute_recheck_raises (env : DateEnv) (d : PyDateTime) :
    dtGetAttrCall d "date"
      = .ok (.VDate { year := d.year, month := d.month, day := d.day })
  ∧ DateField.handle env
      { as_string := false, out_date_format := some EUROPEAN_DATE_FORMAT,
        date_attribute := some "date" } (.VDateTime d)
      = .error (.AttributeError "date") :=
  ⟨rfl, rfl⟩

end FuseCore
